import Mathlib

/-!
Shallow embedding of `ortools/linear_solver/proto_solver/sat_proto_solver.cc`
(`SatSolveProto` and its helpers).

Modelling conventions:
* C++ `double` values are modelled as `ℚ` (exact rationals); no claim in this
  development depends on floating-point rounding of intermediate arithmetic.
* Protobuf messages become Lean structures whose fields default to the proto
  default values.  A proto2 `optional` field with presence semantics becomes an
  `Option`.
* Collaborator functions that live in other translation units
  (`ExtractValidMPModelInPlaceOrPopulateResponseStatus`,
  `MPModelProtoValidationBeforeConversion`, `ValidateParameters`,
  `MakeBoundsOfIntegerVariablesInteger`, `RemoveNearZeroTerms`,
  `ApplyMipPresolveSteps`, `DetectImpliedIntegers`, `ScaleContinuousVariables`,
  `ConvertMPModelProtoToCpModelProto`, `SolveCpModel`, and the protobuf decoding
  of `solver_specific_parameters`) are abstracted as fields of a
  `Collaborators` record: they receive the model and return the (possibly
  rewritten) model plus their result, exactly as the in-place C++ calls do.
* Logging (`SolverLogger`, `SOLVER_LOG`), the cancellation flag and the
  per-solution callback are side channels with no influence on the returned
  value of `SatSolveProto`; they are not modelled.
* `absl::StatusOr<MPSolutionResponse>` becomes `Except String MPSolutionResponse`:
  `.error` is the error channel (`absl::InvalidArgumentError`), `.ok` is a
  normally returned response.
-/

/-- Engine status (`sat::CpSolverStatus`).  Protobuf enums are open: a message
can carry a numeric value outside the declared list, which the C++ `switch`
sends to its `default` branch; constructor `OTHER code` models those values. -/
inductive CpSolverStatus where
  | UNKNOWN
  | MODEL_INVALID
  | FEASIBLE
  | INFEASIBLE
  | OPTIMAL
  | OTHER (code : Nat)
deriving DecidableEq

/-- Response status (`MPSolverResponseStatus` from `linear_solver.proto`),
restricted to the values this file mentions. -/
inductive MPSolverResponseStatus where
  | MPSOLVER_OPTIMAL
  | MPSOLVER_FEASIBLE
  | MPSOLVER_INFEASIBLE
  | MPSOLVER_UNBOUNDED
  | MPSOLVER_ABNORMAL
  | MPSOLVER_NOT_SOLVED
  | MPSOLVER_MODEL_INVALID
  | MPSOLVER_UNKNOWN_STATUS
deriving DecidableEq

/-- Status of the glop presolve (`glop::ProblemStatus`), restricted to the
values named by `SatSolveProto`; `ABNORMAL` and `OPTIMAL` stand in for the
remaining enum values, all of which fall into the `default` branch. -/
inductive ProblemStatus where
  | INIT
  | PRIMAL_INFEASIBLE
  | INVALID_PROBLEM
  | INFEASIBLE_OR_UNBOUNDED
  | ABNORMAL
  | OPTIMAL
deriving DecidableEq

/-- Fields of `sat::SatParameters` read by `sat_proto_solver.cc`, with their
proto default values.  `max_time_in_seconds` has proto default `+inf`, which ℚ
cannot represent; the default here is an arbitrary placeholder (no modelled
code path reads the default, it is only ever overwritten). -/
structure SatParameters where
  log_search_progress : Bool := false
  log_to_stdout : Bool := true
  max_time_in_seconds : ℚ := 0
  enumerate_all_solutions : Bool := false
  mip_presolve_level : Int := 2
  mip_automatically_scale_variables : Bool := true
  mip_var_scaling : ℚ := 1
  mip_scale_large_domain : Bool := false
  mip_max_bound : ℚ := 10 ^ 7
  only_solve_ip : Bool := false
deriving DecidableEq

/-- Partial parameter assignment produced by decoding
`solver_specific_parameters` (protobuf merge semantics: a decoded field that is
present overwrites the current value, an absent field leaves it unchanged). -/
structure SatParametersDelta where
  log_search_progress : Option Bool := none
  log_to_stdout : Option Bool := none
  max_time_in_seconds : Option ℚ := none
  enumerate_all_solutions : Option Bool := none
  mip_presolve_level : Option Int := none
  mip_automatically_scale_variables : Option Bool := none
  mip_var_scaling : Option ℚ := none
  mip_scale_large_domain : Option Bool := none
  mip_max_bound : Option ℚ := none
  only_solve_ip : Option Bool := none
deriving DecidableEq

/-- Protobuf `MergeFromString` / text-format merge of a decoded delta into the
current parameters. -/
def mergeParams (p : SatParameters) (d : SatParametersDelta) : SatParameters :=
  { log_search_progress := d.log_search_progress.getD p.log_search_progress
    log_to_stdout := d.log_to_stdout.getD p.log_to_stdout
    max_time_in_seconds := d.max_time_in_seconds.getD p.max_time_in_seconds
    enumerate_all_solutions := d.enumerate_all_solutions.getD p.enumerate_all_solutions
    mip_presolve_level := d.mip_presolve_level.getD p.mip_presolve_level
    mip_automatically_scale_variables :=
      d.mip_automatically_scale_variables.getD p.mip_automatically_scale_variables
    mip_var_scaling := d.mip_var_scaling.getD p.mip_var_scaling
    mip_scale_large_domain := d.mip_scale_large_domain.getD p.mip_scale_large_domain
    mip_max_bound := d.mip_max_bound.getD p.mip_max_bound
    only_solve_ip := d.only_solve_ip.getD p.only_solve_ip }

/-- One entry of `MPModelProto.variable` (the fields this file reads). -/
structure MPVariableProto where
  lower_bound : ℚ := 0
  upper_bound : ℚ := 0
  is_integer : Bool := false
deriving DecidableEq

/-- One entry of `MPModelProto.constraint`.  Constraints are consumed only by
the abstracted collaborators, so only their presence (the list length) matters
to the embedded code. -/
structure MPConstraintProto where
  lower_bound : ℚ := 0
  upper_bound : ℚ := 0
deriving DecidableEq

/-- Sparse solution hint (`PartialVariableAssignment`): parallel lists of
variable indices and values. -/
structure PartialVariableAssignment where
  var_index : List Int := []
  var_value : List ℚ := []
deriving DecidableEq

/-- The fields of `MPModelProto` read by `sat_proto_solver.cc`.  The proto
field named `variable` is called `vars` here because `variable` is a Lean
keyword. -/
structure MPModelProto where
  vars : List MPVariableProto := []
  constraint : List MPConstraintProto := []
  maximize : Bool := false
  solution_hint : Option PartialVariableAssignment := none
deriving DecidableEq

/-- The fields of `MPModelRequest` read by `sat_proto_solver.cc`. -/
structure MPModelRequest where
  model : MPModelProto := {}
  solver_specific_parameters : Option String := none
  solver_time_limit_seconds : Option ℚ := none
  enable_internal_solver_output : Bool := false
deriving DecidableEq

/-- Protobuf `Clear()`: resets every field to its default. -/
def MPModelRequest.Clear (_ : MPModelRequest) : MPModelRequest := {}

/-- The `objective` field of `CpModelProto` (only `scaling_factor` is read;
the C++ comment: if the scaling factor is unset/zero, it is assumed to be
one). -/
structure CpObjectiveProto where
  scaling_factor : ℚ := 0
deriving DecidableEq

/-- The `floating_point_objective` field of `CpModelProto`: parallel lists of
variable indices and coefficients plus an offset. -/
structure FloatObjectiveProto where
  vars : List Nat := []
  coeffs : List ℚ := []
  offset : ℚ := 0
deriving DecidableEq

/-- Scaled integer hint stored into the CP-SAT model (parallel lists). -/
structure CpPartialAssignment where
  vars : List Int := []
  values : List Int := []
deriving DecidableEq

/-- The fields of `sat::CpModelProto` read by `sat_proto_solver.cc`. -/
structure CpModelProto where
  floating_point_objective : FloatObjectiveProto := {}
  objective : CpObjectiveProto := {}
  has_objective : Bool := false
  solution_hint : CpPartialAssignment := {}
deriving DecidableEq

/-- One additional solution reported by the engine (`sat::CpSolverSolution`). -/
structure CpSolverSolution where
  values : List Int := []
deriving DecidableEq

/-- The fields of `sat::CpSolverResponse` read by `sat_proto_solver.cc`. -/
structure CpSolverResponse where
  status : CpSolverStatus := .UNKNOWN
  objective_value : ℚ := 0
  best_objective_bound : ℚ := 0
  solution : List Int := []
  additional_solutions : List CpSolverSolution := []
  wall_time : ℚ := 0
  user_time : ℚ := 0
deriving DecidableEq

/-- A solution in original (caller) space (`MPSolution`). -/
structure MPSolution where
  objective_value : ℚ := 0
  variable_value : List ℚ := []
deriving DecidableEq

/-- Timing statistics of the response (`MPSolveInfo`). -/
structure MPSolveInfo where
  solve_wall_time_seconds : ℚ := 0
  solve_user_time_seconds : ℚ := 0
deriving DecidableEq

/-- The fields of `MPSolutionResponse` produced by `sat_proto_solver.cc`. -/
structure MPSolutionResponse where
  status : MPSolverResponseStatus := .MPSOLVER_UNKNOWN_STATUS
  status_str : String := ""
  objective_value : ℚ := 0
  best_objective_bound : ℚ := 0
  variable_value : List ℚ := []
  additional_solutions : List MPSolution := []
  solve_info : MPSolveInfo := {}
deriving DecidableEq

/-- `ToMPSolverResponseStatus` (sat_proto_solver.cc lines 68-85).  The
`has_objective` argument is present in the C++ signature and unused by the
body, exactly as here. -/
def ToMPSolverResponseStatus (status : CpSolverStatus) (has_objective : Bool) :
    MPSolverResponseStatus :=
  match status with
  | .UNKNOWN => .MPSOLVER_NOT_SOLVED
  | .MODEL_INVALID => .MPSOLVER_MODEL_INVALID
  | .FEASIBLE => .MPSOLVER_FEASIBLE
  | .INFEASIBLE => .MPSOLVER_INFEASIBLE
  | .OPTIMAL => .MPSOLVER_OPTIMAL
  | .OTHER _ => .MPSOLVER_ABNORMAL

/-- `InfeasibleResponse` (lines 101-117) without its logging side effect. -/
def InfeasibleResponse (message : String) : MPSolutionResponse :=
  { status := .MPSOLVER_INFEASIBLE, status_str := message }

/-- `ModelInvalidResponse` (lines 119-135) without its logging side effect. -/
def ModelInvalidResponse (message : String) : MPSolutionResponse :=
  { status := .MPSOLVER_MODEL_INVALID, status_str := message }

/-- Abstracted collaborators of `SatSolveProto` (functions defined in other
translation units).  Each in-place mutating C++ call becomes a function that
returns the rewritten model together with its result.
`kProtoLiteSatParameters` is the compile-time build-flavor constant choosing
between the binary and the textual encoding of `solver_specific_parameters`;
`decodeSatParameters` is the corresponding decode, `none` meaning the decode
failed.  `ApplyMipPresolveSteps` returns the presolve status, the rewritten
model and the recorded preprocessors, each represented by its
`RecoverSolution` action on a primal-value vector. -/
structure Collaborators where
  kProtoLiteSatParameters : Bool
  decodeSatParameters : String → Option SatParametersDelta
  extractValidMPModel :
    MPModelRequest → MPSolutionResponse → Bool × MPModelRequest × MPSolutionResponse
  MPModelProtoValidationBeforeConversion : SatParameters → MPModelProto → Bool
  ValidateParameters : SatParameters → String
  MakeBoundsOfIntegerVariablesInteger : SatParameters → MPModelProto → Bool × MPModelProto
  RemoveNearZeroTerms : SatParameters → MPModelProto → MPModelProto
  ApplyMipPresolveSteps :
    MPModelProto → ProblemStatus × MPModelProto × List (List ℚ → List ℚ)
  DetectImpliedIntegers : MPModelProto → List ℚ × MPModelProto
  ScaleContinuousVariables : ℚ → Option ℚ → MPModelProto → List ℚ × MPModelProto
  ConvertMPModelProtoToCpModelProto : SatParameters → MPModelProto → Option CpModelProto
  SolveCpModel : CpModelProto → SatParameters → CpSolverResponse

/-- Parameter setup of `SatSolveProto` (lines 143-165): start from defaults,
set `log_search_progress` from the request so the solver-specific blob can
overwrite it, decode and merge the blob (an undecodable blob is an
`absl::InvalidArgumentError`, the message depending on the build flavor), and
finally overwrite `max_time_in_seconds` from the request time limit. -/
def configureParams (env : Collaborators) (request : MPModelRequest) :
    Except String SatParameters :=
  let params : SatParameters :=
    { log_search_progress := request.enable_internal_solver_output }
  let merged : Except String SatParameters :=
    match request.solver_specific_parameters with
    | none => .ok params
    | some blob =>
      match env.decodeSatParameters blob with
      | none =>
        .error
          (if env.kProtoLiteSatParameters then
            "solver_specific_parameters is not a valid binary stream of the SatParameters proto"
          else
            "solver_specific_parameters is not a valid textual representation of the SatParameters proto")
      | some delta => .ok (mergeParams params delta)
  match merged with
  | .error e => .error e
  | .ok params =>
    match request.solver_time_limit_seconds with
    | some t => .ok { params with max_time_in_seconds := t }
    | none => .ok params

/-- Rounding used on hint values: `static_cast<int64_t>(std::round(value))`.
`std::round` rounds to the nearest integer, halfway cases away from zero. -/
def cppRound (x : ℚ) : Int :=
  if x < 0 then -⌊-x + 1 / 2⌋ else ⌊x + 1 / 2⌋

/-- Projection of one retained hint value (lines 325-332): multiply by the
variable scaling factor, cap any value whose magnitude exceeds
`mip_max_bound` to exactly plus or minus `mip_max_bound`, then round. -/
def processHintValue (params : SatParameters) (scaling : ℚ) (x : ℚ) : Int :=
  let value := x * scaling
  let value :=
    if params.mip_max_bound < |value| then
      if 0 < value then params.mip_max_bound else -params.mip_max_bound
    else value
  cppRound value

/-- Hint projection loop (lines 315-334) over the zipped
(index, value) entries.  An entry whose index is negative or at least
`var_scaling.size()` is skipped (`var >= var_scaling.size()` in C++ converts
the signed index to `size_t`, so negative indices also compare large and are
dropped); a retained entry appends the index and the processed value. -/
def projectHintEntries (params : SatParameters) (var_scaling : List ℚ)
    (entries : List (Int × ℚ)) : CpPartialAssignment :=
  entries.foldl
    (fun acc e =>
      if e.1 < 0 ∨ (var_scaling.length : Int) ≤ e.1 then acc
      else
        { vars := acc.vars ++ [e.1]
          values := acc.values ++ [processHintValue params (var_scaling.getD e.1.toNat 1) e.2] })
    {}

/-- Hint projection on the sparse hint message (parallel index/value lists). -/
def projectHint (params : SatParameters) (var_scaling : List ℚ)
    (hint : PartialVariableAssignment) : CpPartialAssignment :=
  projectHintEntries params var_scaling (hint.var_index.zip hint.var_value)

/-- The postsolve loop `for (int i = for_postsolve.size(); --i >= 0;)` of
lines 360-362: apply preprocessor `i - 1`, then recurse on `i - 1`, so the
most recently recorded step runs first. -/
def applyPostsolveSteps (steps : List (List ℚ → List ℚ)) :
    Nat → List ℚ → List ℚ
  | 0, sol => sol
  | i + 1, sol => applyPostsolveSteps steps i ((steps.getD i id) sol)

/-- The `post_solve` lambda (lines 350-368): build a primal vector of
`old_num_variables` values, each engine value divided by its scaling factor,
run the recorded preprocessors back to front, and return the values together
with the objective value of the engine response.  Out-of-range accesses
(impossible in the C++ code, where the lengths agree) default to value `0`
and scaling factor `1`. -/
def postSolve (old_num_variables : Nat) (var_scaling : List ℚ)
    (for_postsolve : List (List ℚ → List ℚ)) (cp_response : CpSolverResponse) :
    MPSolution :=
  let primal : List ℚ :=
    (List.range old_num_variables).map
      (fun v => ((cp_response.solution.getD v 0 : Int) : ℚ) / var_scaling.getD v 1)
  { objective_value := cp_response.objective_value
    variable_value := applyPostsolveSteps for_postsolve for_postsolve.length primal }

/-- Objective recomputation for an additional solution (lines 408-417): start
from the floating-point objective offset, add each coefficient times the
solution value of its variable, and multiply by the objective scaling factor
unless that factor is unset (zero). -/
def additionalSolutionObjective (cp_model : CpModelProto) (values : List Int) : ℚ :=
  let obj :=
    (cp_model.floating_point_objective.vars.zip cp_model.floating_point_objective.coeffs).foldl
      (fun acc vc => acc + ((values.getD vc.1 0 : Int) : ℚ) * vc.2)
      cp_model.floating_point_objective.offset
  if cp_model.objective.scaling_factor ≠ 0 then obj * cp_model.objective.scaling_factor
  else obj

/-- The additional-solutions loop (lines 402-422): walk the engine solutions
in order, skip any whose raw value vector equals the primary solution vector,
and postsolve the rest with the recomputed objective. -/
def buildAdditionalSolutions (cp_model : CpModelProto) (cp_response : CpSolverResponse)
    (post_solve : CpSolverResponse → MPSolution) : List MPSolution :=
  cp_response.additional_solutions.foldl
    (fun acc s =>
      if s.values = cp_response.solution then acc
      else
        acc ++
          [post_solve
            { solution := s.values
              objective_value := additionalSolutionObjective cp_model s.values }])
    []

/-- Comparator of the `std::sort` call (lines 424-432). -/
def solutionLess (is_maximize : Bool) (left right : MPSolution) : Bool :=
  if is_maximize then decide (left.objective_value > right.objective_value)
  else decide (left.objective_value < right.objective_value)

/-- Insertion of one element into a list sorted by `lt`, keeping earlier
elements first on ties. -/
def insertSorted (lt : MPSolution → MPSolution → Bool) (x : MPSolution) :
    List MPSolution → List MPSolution
  | [] => [x]
  | y :: ys => if lt x y then x :: y :: ys else y :: insertSorted lt x ys

/-- Model of the `std::sort` call on the additional solutions.  `std::sort`
only promises a permutation ordered by the comparator and is unspecified on
ties; this stable insertion sort is one conforming execution, and every
theorem below that evaluates it uses pairwise distinct objective values, for
which all conforming executions agree. -/
def sortSolutions (lt : MPSolution → MPSolution → Bool) (l : List MPSolution) :
    List MPSolution :=
  l.foldr (insertSorted lt) []

/-- The MIP presolve block (lines 226-258).  `.ok` carries the rewritten model
and the recorded preprocessors; `.error` carries the early-exit response:
infeasible and invalid presolve outcomes map to the corresponding responses,
and every other non-`INIT` status falls into the `default` branch, which sets
status `MPSOLVER_UNKNOWN_STATUS` on the current response and a status string
only for `INFEASIBLE_OR_UNBOUNDED`.  When presolve is disabled (enumerating
all solutions, or a non-positive presolve level) the model passes through and
no preprocessor is recorded. -/
def presolveStage (env : Collaborators) (params : SatParameters)
    (response : MPSolutionResponse) (mp_model : MPModelProto) :
    Except MPSolutionResponse (MPModelProto × List (List ℚ → List ℚ)) :=
  if params.enumerate_all_solutions = false ∧ 0 < params.mip_presolve_level then
    match env.ApplyMipPresolveSteps mp_model with
    | (.INIT, m, for_postsolve) => .ok (m, for_postsolve)
    | (.PRIMAL_INFEASIBLE, _, _) =>
      .error (InfeasibleResponse "Problem proven infeasible during MIP presolve")
    | (.INVALID_PROBLEM, _, _) =>
      .error (ModelInvalidResponse "Problem detected invalid during MIP presolve")
    | (status, _, _) =>
      .error
        { response with
          status := .MPSOLVER_UNKNOWN_STATUS
          status_str :=
            if status = .INFEASIBLE_OR_UNBOUNDED then
              "Problem proven infeasible or unbounded during MIP presolve"
            else response.status_str }
  else .ok (mp_model, [])

/-- The scaling block (lines 266-284).  With automatic variable scaling the
vector of ones is replaced by the implied-integer detection result and the
integer bounds are re-integerized (an empty domain is an infeasible early
exit); with a non-unit `mip_var_scaling` the continuous-variable scaling is
multiplied elementwise into the vector, the maximum bound being infinite
(`none`) when `mip_scale_large_domain` is set and `mip_max_bound` otherwise. -/
def scalingStage (env : Collaborators) (params : SatParameters)
    (mp_model : MPModelProto) :
    Except MPSolutionResponse (MPModelProto × List ℚ) :=
  let num_variables := mp_model.vars.length
  let step1 : Except MPSolutionResponse (MPModelProto × List ℚ) :=
    if params.mip_automatically_scale_variables then
      let detected := env.DetectImpliedIntegers mp_model
      match env.MakeBoundsOfIntegerVariablesInteger params detected.2 with
      | (false, _) =>
        .error (InfeasibleResponse "A detected integer variable has an empty domain")
      | (true, m) => .ok (m, detected.1)
    else .ok (mp_model, List.replicate num_variables (1 : ℚ))
  match step1 with
  | .error e => .error e
  | .ok (m, var_scaling) =>
    if params.mip_var_scaling ≠ 1 then
      let max_bound : Option ℚ :=
        if params.mip_scale_large_domain then none else some params.mip_max_bound
      let scaled := env.ScaleContinuousVariables params.mip_var_scaling max_bound m
      .ok (scaled.2, List.zipWith (· * ·) var_scaling scaled.1)
    else .ok (m, var_scaling)

/-- `SatSolveProto` (lines 139-434), with logging, cancellation and the
per-solution callback omitted (side channels that do not affect the returned
value).  The stages follow the source order: parameter setup, model
extraction/validation, extra CP-SAT validation, parameter validation, bound
integerization, near-zero-term removal, MIP presolve, second near-zero-term
removal, scaling, the `only_solve_ip` check, conversion, hint projection,
`request.Clear()`, the engine call, response assembly and the
additional-solution postsolve and sort.  Note that `is_maximize` is read from
the request after `request.Clear()`, exactly as in the source (line 423 reads
`request.model().maximize()` although line 339 cleared `request`). -/
def SatSolveProto (env : Collaborators) (request0 : MPModelRequest) :
    Except String MPSolutionResponse :=
  match configureParams env request0 with
  | .error e => .error e
  | .ok params =>
    match env.extractValidMPModel request0 {} with
    | (false, _, response) => .ok response
    | (true, request, response) =>
      let mp_model := request.model
      if env.MPModelProtoValidationBeforeConversion params mp_model = false then
        .ok (ModelInvalidResponse "Extra CP-SAT validation failed.")
      else if env.ValidateParameters params ≠ "" then
        .ok (ModelInvalidResponse
          ("Invalid CP-SAT parameters: " ++ env.ValidateParameters params))
      else
        match env.MakeBoundsOfIntegerVariablesInteger params mp_model with
        | (false, _) => .ok (InfeasibleResponse "An integer variable has an empty domain")
        | (true, mp_model1) =>
          let mp_model2 := env.RemoveNearZeroTerms params mp_model1
          match presolveStage env params response mp_model2 with
          | .error early => .ok early
          | .ok (mp_model3, for_postsolve) =>
            let mp_model4 := env.RemoveNearZeroTerms params mp_model3
            match scalingStage env params mp_model4 with
            | .error early => .ok early
            | .ok (mp_model5, var_scaling) =>
              if params.only_solve_ip &&
                  mp_model5.vars.any (fun v => !v.is_integer) then
                .ok (ModelInvalidResponse
                  ("The model contains non-integer variables but the parameter " ++
                   "\x27only_solve_ip\x27 was set. Change this parameter if you " ++
                   "still want to solve a more constrained version of the original " ++
                   "MIP where non-integer variables can only take a finite set of values."))
              else
                match env.ConvertMPModelProtoToCpModelProto params mp_model5 with
                | none =>
                  .ok (ModelInvalidResponse "Failed to convert model into CP-SAT model")
                | some cp_model0 =>
                  let cp_model :=
                    match mp_model5.solution_hint with
                    | none => cp_model0
                    | some hint =>
                      { cp_model0 with solution_hint := projectHint params var_scaling hint }
                  let old_num_variables := mp_model5.vars.length
                  let request1 := MPModelRequest.Clear request
                  let cp_response := env.SolveCpModel cp_model params
                  let response1 :=
                    { response with
                      solve_info :=
                        { solve_wall_time_seconds := cp_response.wall_time
                          solve_user_time_seconds := cp_response.user_time }
                      status :=
                        ToMPSolverResponseStatus cp_response.status cp_model.has_objective }
                  let response2 :=
                    if response1.status = .MPSOLVER_FEASIBLE ∨
                        response1.status = .MPSOLVER_OPTIMAL then
                      { response1 with
                        objective_value := cp_response.objective_value
                        best_objective_bound := cp_response.best_objective_bound
                        variable_value :=
                          (postSolve old_num_variables var_scaling for_postsolve
                            cp_response).variable_value }
                    else response1
                  let additional :=
                    buildAdditionalSolutions cp_model cp_response
                      (postSolve old_num_variables var_scaling for_postsolve)
                  let is_maximize := request1.model.maximize
                  .ok { response2 with
                        additional_solutions :=
                          sortSolutions (solutionLess is_maximize) additional }

/-- A collaborator assignment in which every validation succeeds, every model
transformation is the identity, presolve records no step, and the engine
returns the default response.  Concrete solves below override single fields. -/
def trivialEnv : Collaborators where
  kProtoLiteSatParameters := true
  decodeSatParameters := fun _ => some {}
  extractValidMPModel := fun r resp => (true, r, resp)
  MPModelProtoValidationBeforeConversion := fun _ _ => true
  ValidateParameters := fun _ => ""
  MakeBoundsOfIntegerVariablesInteger := fun _ m => (true, m)
  RemoveNearZeroTerms := fun _ m => m
  ApplyMipPresolveSteps := fun m => (.INIT, m, [])
  DetectImpliedIntegers := fun m => (List.replicate m.vars.length 1, m)
  ScaleContinuousVariables := fun _ _ m => (List.replicate m.vars.length 1, m)
  ConvertMPModelProtoToCpModelProto := fun _ _ => some {}
  SolveCpModel := fun _ _ => {}

/-- Environment whose engine reports an optimal primary solution `[0]` and two
additional solutions `[1]` and `[2]`, and whose converted model carries the
floating-point objective `13 - 3 x₀`, so the additional solutions have
objective values `10` and `7` in engine report order. -/
def envC1 : Collaborators :=
  { trivialEnv with
    ConvertMPModelProtoToCpModelProto := fun _ _ =>
      some { floating_point_objective := { vars := [0], coeffs := [-3], offset := 13 }
             has_objective := true }
    SolveCpModel := fun _ _ =>
      { status := .OPTIMAL
        solution := [0]
        additional_solutions := [{ values := [1] }, { values := [2] }] } }

/-- A maximization request with one integer variable. -/
def reqC1 : MPModelRequest :=
  { model := { vars := [{ is_integer := true }], maximize := true } }

/-- Environment whose parameter-range validation reports a violation. -/
def envC3 : Collaborators :=
  { trivialEnv with ValidateParameters := fun _ => "bad field" }

/-- Environment whose `solver_specific_parameters` decode fails. -/
def envC4 : Collaborators :=
  { trivialEnv with decodeSatParameters := fun _ => none }

/-- Request carrying an (undecodable, for `envC4`) parameter blob. -/
def reqC4 : MPModelRequest := { solver_specific_parameters := some "x" }

/-- Environment in which bound-integerization reports an empty domain. -/
def envW1 : Collaborators :=
  { trivialEnv with MakeBoundsOfIntegerVariablesInteger := fun _ m => (false, m) }

/-- Environment in which bound-integerization succeeds before presolve but
fails after implied-integer detection (the detection empties the variable
list, and integerization fails exactly on variable-free models). -/
def envW2 : Collaborators :=
  { trivialEnv with
    DetectImpliedIntegers := fun m => (List.replicate m.vars.length 1, { m with vars := [] })
    MakeBoundsOfIntegerVariablesInteger := fun _ m => (decide (m.vars ≠ []), m) }

/-- A request with a single variable, for `envW2`. -/
def reqW2 : MPModelRequest := { model := { vars := [{}] } }

/-- Environment whose parameter blob decodes to a delta setting both a time
limit and the verbose flag. -/
def envC10 : Collaborators :=
  { trivialEnv with
    decodeSatParameters := fun _ =>
      some { max_time_in_seconds := some 99, log_search_progress := some true } }

/-- Request with both a parameter blob and an explicit time limit. -/
def reqC10 : MPModelRequest :=
  { solver_specific_parameters := some "p", solver_time_limit_seconds := some 5 }

/-- Claim C2, counterexample: the engine status `UNKNOWN` does not map to
`MPSOLVER_ABNORMAL` as the claim states; it maps to `MPSOLVER_NOT_SOLVED`. -/
theorem toMPSolverResponseStatus_unknown_counterexample :
    ToMPSolverResponseStatus .UNKNOWN true ≠ .MPSOLVER_ABNORMAL ∧
    ToMPSolverResponseStatus .UNKNOWN true = .MPSOLVER_NOT_SOLVED := by
  decide

/-- Claim C2, amended: the engine-status-to-response-status mapping sends
optimal to optimal, feasible to feasible, infeasible to infeasible,
model-invalid to model-invalid, the engine's unknown status to not-solved,
and every unrecognized engine status to abnormal. -/
theorem toMPSolverResponseStatus_mapping :
    (∀ b, ToMPSolverResponseStatus .OPTIMAL b = .MPSOLVER_OPTIMAL) ∧
    (∀ b, ToMPSolverResponseStatus .FEASIBLE b = .MPSOLVER_FEASIBLE) ∧
    (∀ b, ToMPSolverResponseStatus .INFEASIBLE b = .MPSOLVER_INFEASIBLE) ∧
    (∀ b, ToMPSolverResponseStatus .MODEL_INVALID b = .MPSOLVER_MODEL_INVALID) ∧
    (∀ b, ToMPSolverResponseStatus .UNKNOWN b = .MPSOLVER_NOT_SOLVED) ∧
    (∀ b n, ToMPSolverResponseStatus (.OTHER n) b = .MPSOLVER_ABNORMAL) :=
  ⟨fun _ => rfl, fun _ => rfl, fun _ => rfl, fun _ => rfl, fun _ => rfl,
   fun _ _ => rfl⟩

/-- Claim C4: a solver-specific parameter blob that fails to decode in the
encoding of the current build flavor makes the whole solve return an error
result (the `absl::InvalidArgumentError` channel), never a normally returned
response. -/
theorem blob_decode_failure_returns_error (env : Collaborators)
    (request : MPModelRequest) (blob : String)
    (hb : request.solver_specific_parameters = some blob)
    (hd : env.decodeSatParameters blob = none) :
    SatSolveProto env request =
      .error
        (if env.kProtoLiteSatParameters then
          "solver_specific_parameters is not a valid binary stream of the SatParameters proto"
        else
          "solver_specific_parameters is not a valid textual representation of the SatParameters proto") := by
  simp [SatSolveProto, configureParams, hb, hd]

/-- Claim C4, witness at a concrete environment and request. -/
theorem blob_decode_failure_returns_error_witness :
    SatSolveProto envC4 reqC4 =
      .error
        "solver_specific_parameters is not a valid binary stream of the SatParameters proto" :=
  blob_decode_failure_returns_error envC4 reqC4 "x" rfl rfl

/-- Claim C10: when the request carries a time limit, the configured
parameters take their maximum solve time from the request no matter what the
decoded blob said, while the verbose-output flag is taken from the blob when
the blob sets it (the request value is only the pre-merge default). -/
theorem configureParams_time_limit_overrides_blob (env : Collaborators)
    (request : MPModelRequest) (blob : String) (delta : SatParametersDelta) (t : ℚ)
    (hb : request.solver_specific_parameters = some blob)
    (hd : env.decodeSatParameters blob = some delta)
    (ht : request.solver_time_limit_seconds = some t) :
    ∃ params : SatParameters, configureParams env request = .ok params ∧
      params.max_time_in_seconds = t ∧
      params.log_search_progress =
        delta.log_search_progress.getD request.enable_internal_solver_output := by
  refine ⟨{ mergeParams { log_search_progress := request.enable_internal_solver_output }
            delta with max_time_in_seconds := t }, ?_, rfl, rfl⟩
  simp [configureParams, hb, hd, ht]

/-- Claim C10, witness: blob sets time limit 99 and verbose true, request sets
time limit 5 and verbose false; the result keeps time limit 5 and verbose
true. -/
theorem configureParams_time_limit_overrides_blob_witness :
    ∃ params : SatParameters, configureParams envC10 reqC10 = .ok params ∧
      params.max_time_in_seconds = 5 ∧
      params.log_search_progress =
        (some true).getD reqC10.enable_internal_solver_output :=
  configureParams_time_limit_overrides_blob envC10 reqC10 "p"
    { max_time_in_seconds := some 99, log_search_progress := some true } 5 rfl rfl rfl

/-- Claim C7: a hint entry whose variable index is at least the current
variable count is silently dropped, wherever it sits in the hint, and the
projection of every other entry is unchanged. -/
theorem projectHint_drops_out_of_range (params : SatParameters)
    (var_scaling : List ℚ) (pre post : List (Int × ℚ)) (v : Int) (x : ℚ)
    (hv : (var_scaling.length : Int) ≤ v) :
    projectHintEntries params var_scaling (pre ++ (v, x) :: post) =
      projectHintEntries params var_scaling (pre ++ post) := by
  unfold projectHintEntries
  rw [List.foldl_append, List.foldl_append, List.foldl_cons]
  have h : ∀ acc : CpPartialAssignment,
      (if (v : Int) < 0 ∨ (var_scaling.length : Int) ≤ v then acc
       else
        { vars := acc.vars ++ [v]
          values :=
            acc.values ++ [processHintValue params (var_scaling.getD v.toNat 1) x] }) =
      acc := by
    intro acc
    rw [if_pos (Or.inr hv)]
  simp only [h]

/-- Claim C7, witness: with one in-range variable, a hint entry for index 5 is
dropped and the projection equals the projection of the remaining (empty)
entry list. -/
theorem projectHint_drops_out_of_range_witness :
    projectHintEntries {} [1] ([] ++ (5, 3) :: []) =
      projectHintEntries {} [1] ([] ++ []) :=
  projectHint_drops_out_of_range {} [1] [] [] 5 3 (by decide)

/-- Claim C8: the projected value of a retained hint entry is the rounding of
a value `y` obtained by first scaling the hint value and then clamping: `y`
never exceeds `mip_max_bound` in magnitude, equals the scaled value whenever
that already fits, and equals exactly plus or minus `mip_max_bound` whenever
the scaled magnitude exceeds the bound. -/
theorem processHintValue_clamp_spec (params : SatParameters) (scaling x : ℚ)
    (hm : 0 ≤ params.mip_max_bound) :
    ∃ y : ℚ, processHintValue params scaling x = cppRound y ∧
      |y| ≤ params.mip_max_bound ∧
      (|x * scaling| ≤ params.mip_max_bound → y = x * scaling) ∧
      (params.mip_max_bound < |x * scaling| →
        y = params.mip_max_bound ∨ y = -params.mip_max_bound) := by
  by_cases h : params.mip_max_bound < |x * scaling|
  · by_cases hp : 0 < x * scaling
    · refine ⟨params.mip_max_bound, ?_, ?_, ?_, fun _ => Or.inl rfl⟩
      · simp [processHintValue, h, hp]
      · rw [abs_of_nonneg hm]
      · intro hc; exact absurd h (not_lt.mpr hc)
    · refine ⟨-params.mip_max_bound, ?_, ?_, ?_, fun _ => Or.inr rfl⟩
      · simp [processHintValue, h, hp]
      · rw [abs_neg, abs_of_nonneg hm]
      · intro hc; exact absurd h (not_lt.mpr hc)
  · refine ⟨x * scaling, ?_, not_lt.mp h, fun _ => rfl, fun hc => absurd hc h⟩
    simp [processHintValue, h]

/-- Claim C8, witness: with the default maximum bound `10 ^ 7` and scaling
factor `1`, the hint value `2 * 10 ^ 7` is clamped. -/
theorem processHintValue_clamp_spec_witness :
    ∃ y : ℚ, processHintValue {} 1 20000000 = cppRound y ∧
      |y| ≤ SatParameters.mip_max_bound {} ∧
      (|(20000000 : ℚ) * 1| ≤ SatParameters.mip_max_bound {} → y = 20000000 * 1) ∧
      (SatParameters.mip_max_bound {} < |(20000000 : ℚ) * 1| →
        y = SatParameters.mip_max_bound {} ∨ y = -SatParameters.mip_max_bound {}) :=
  processHintValue_clamp_spec {} 1 20000000 (by norm_num)

/-- Claim C9: the additional-solution loop produces exactly the engine
solutions whose raw value vector differs from the primary solution vector, in
engine order, each postsolved with its recomputed objective; a solution
identical to the primary never appears. -/
theorem buildAdditionalSolutions_skips_primary (cp_model : CpModelProto)
    (r : CpSolverResponse) (post_solve : CpSolverResponse → MPSolution) :
    buildAdditionalSolutions cp_model r post_solve =
      (r.additional_solutions.filter (fun s => s.values ≠ r.solution)).map
        (fun s =>
          post_solve
            { solution := s.values
              objective_value := additionalSolutionObjective cp_model s.values }) := by
  have aux : ∀ (l : List CpSolverSolution) (acc : List MPSolution),
      l.foldl
        (fun acc s =>
          if s.values = r.solution then acc
          else
            acc ++
              [post_solve
                { solution := s.values
                  objective_value := additionalSolutionObjective cp_model s.values }]) acc
      = acc ++
          (l.filter (fun s => s.values ≠ r.solution)).map
            (fun s =>
              post_solve
                { solution := s.values
                  objective_value := additionalSolutionObjective cp_model s.values }) := by
    intro l
    induction l with
    | nil => intro acc; simp
    | cons s l ih =>
      intro acc
      by_cases h : s.values = r.solution
      · simp [List.foldl_cons, List.filter_cons, h, ih]
      · simp [List.foldl_cons, List.filter_cons, h, ih]
  simpa [buildAdditionalSolutions] using aux r.additional_solutions []

/-- The downward postsolve loop applied up to index `k` equals a left fold
over the reversed prefix of length `k`. -/
theorem applyPostsolveSteps_take (steps : List (List ℚ → List ℚ)) :
    ∀ (k : Nat), k ≤ steps.length → ∀ (sol : List ℚ),
      applyPostsolveSteps steps k sol =
        ((steps.take k).reverse).foldl (fun s f => f s) sol := by
  intro k
  induction k with
  | zero => intro _ sol; rfl
  | succ k ih =>
    intro hk sol
    have hklt : k < steps.length := Nat.lt_of_succ_le hk
    rw [applyPostsolveSteps, ih (Nat.le_of_lt hklt), List.take_succ,
        List.getElem?_eq_getElem hklt, List.getD_eq_getElem steps id hklt,
        Option.toList_some, List.reverse_append, List.reverse_singleton,
        List.singleton_append, List.foldl_cons]

/-- The whole downward postsolve loop is a left fold over the reversed step
list. -/
theorem applyPostsolveSteps_eq_reverse_foldl (steps : List (List ℚ → List ℚ))
    (sol : List ℚ) :
    applyPostsolveSteps steps steps.length sol =
      steps.reverse.foldl (fun s f => f s) sol := by
  rw [applyPostsolveSteps_take steps steps.length le_rfl sol, List.take_length]

/-- Claim C6: postsolving an engine-space solution first divides each value by
its scaling factor and then applies the recorded presolve recovery steps in
reverse order of application, the most recently applied step first. -/
theorem postSolve_reverse_order_spec (n : Nat) (var_scaling : List ℚ)
    (for_postsolve : List (List ℚ → List ℚ)) (r : CpSolverResponse)
    (hs : r.solution.length = n) (hv : var_scaling.length = n) :
    postSolve n var_scaling for_postsolve r =
      { objective_value := r.objective_value
        variable_value :=
          for_postsolve.reverse.foldl (fun sol recover => recover sol)
            (List.zipWith (fun (v : Int) (s : ℚ) => (v : ℚ) / s)
              r.solution var_scaling) } := by
  have hinit : (List.range n).map
      (fun v => ((r.solution.getD v 0 : Int) : ℚ) / var_scaling.getD v 1) =
      List.zipWith (fun (v : Int) (s : ℚ) => (v : ℚ) / s) r.solution var_scaling := by
    apply List.ext_getElem
    · simp [hs, hv]
    · intro i h1 h2
      simp only [List.getElem_map, List.getElem_range, List.getElem_zipWith]
      rw [List.getD_eq_getElem r.solution 0 (by simp at h1; omega),
          List.getD_eq_getElem var_scaling 1 (by simp at h1; omega)]
  show { objective_value := r.objective_value
         variable_value :=
           applyPostsolveSteps for_postsolve for_postsolve.length
             ((List.range n).map
               (fun v => ((r.solution.getD v 0 : Int) : ℚ) / var_scaling.getD v 1)) } =
    ({ objective_value := r.objective_value
       variable_value :=
         for_postsolve.reverse.foldl (fun sol recover => recover sol)
           (List.zipWith (fun (v : Int) (s : ℚ) => (v : ℚ) / s)
             r.solution var_scaling) } : MPSolution)
  rw [hinit, applyPostsolveSteps_eq_reverse_foldl]

/-- Claim C6, witness: one engine value `6`, scaling factor `2`, and two
recovery steps recorded in application order. -/
theorem postSolve_reverse_order_spec_witness :
    postSolve 1 [2]
        [fun sol => sol.map (fun q => q + 1), fun sol => sol ++ [0]]
        { solution := [6], objective_value := 5 } =
      { objective_value := 5
        variable_value :=
          ([fun sol => sol.map (fun q => q + 1), fun sol : List ℚ => sol ++ [0]]).reverse.foldl
            (fun sol recover => recover sol)
            (List.zipWith (fun (v : Int) (s : ℚ) => (v : ℚ) / s) [6] [2]) } :=
  postSolve_reverse_order_spec 1 [2]
    [fun sol => sol.map (fun q => q + 1), fun sol => sol ++ [0]]
    { solution := [6], objective_value := 5 } rfl rfl

/-- Claim C3, counterexample: an out-of-range parameter configuration does not
make the solve fail with an error result; the solve returns a normal response
whose status is `MPSOLVER_MODEL_INVALID`. -/
theorem invalid_parameters_counterexample :
    SatSolveProto envC3 {} =
      .ok (ModelInvalidResponse "Invalid CP-SAT parameters: bad field") ∧
    (ModelInvalidResponse "Invalid CP-SAT parameters: bad field").status =
      .MPSOLVER_MODEL_INVALID := by
  exact ⟨rfl, rfl⟩

/-- Claim C3, amended: when the parameter-range validation reports a nonempty
error, the solve returns a normal response with status
`MPSOLVER_MODEL_INVALID` whose message contains the validation error, and it
does so after model validation but before bound integerization, presolve,
conversion or any solving work. -/
theorem invalid_parameters_model_invalid_response (env : Collaborators)
    (request req1 : MPModelRequest) (params : SatParameters)
    (resp : MPSolutionResponse) (error : String)
    (hp : configureParams env request = .ok params)
    (hx : env.extractValidMPModel request {} = (true, req1, resp))
    (hv : env.MPModelProtoValidationBeforeConversion params req1.model = true)
    (he : env.ValidateParameters params = error) (hne : error ≠ "") :
    SatSolveProto env request =
      .ok (ModelInvalidResponse ("Invalid CP-SAT parameters: " ++ error)) := by
  simp only [SatSolveProto, hp, hx, hv, he]
  simp [hne]

/-- Claim C3, witness at a concrete environment whose range validation
reports the violated field. -/
theorem invalid_parameters_model_invalid_response_witness :
    SatSolveProto envC3 {} =
      .ok (ModelInvalidResponse ("Invalid CP-SAT parameters: " ++ "bad field")) :=
  invalid_parameters_model_invalid_response envC3 {} {} {} {} "bad field"
    rfl rfl rfl rfl (by decide)

/-- Claim C5: whenever bound-integerization reports an empty integer domain —
either on the first pass, before presolve, or on the second pass, after
implied-integer detection — the solve returns a normal response with status
`MPSOLVER_INFEASIBLE` and a message naming the empty-domain cause, never an
unknown or abnormal status. -/
theorem empty_domain_returns_infeasible :
    (∀ (env : Collaborators) (request req1 : MPModelRequest)
      (params : SatParameters) (resp : MPSolutionResponse) (m : MPModelProto),
      configureParams env request = .ok params →
      env.extractValidMPModel request {} = (true, req1, resp) →
      env.MPModelProtoValidationBeforeConversion params req1.model = true →
      env.ValidateParameters params = "" →
      env.MakeBoundsOfIntegerVariablesInteger params req1.model = (false, m) →
      SatSolveProto env request =
        .ok (InfeasibleResponse "An integer variable has an empty domain")) ∧
    (∀ (env : Collaborators) (request req1 : MPModelRequest)
      (params : SatParameters) (resp : MPSolutionResponse)
      (m1 m3 m5 m6 : MPModelProto) (steps : List (List ℚ → List ℚ)) (vs : List ℚ),
      configureParams env request = .ok params →
      env.extractValidMPModel request {} = (true, req1, resp) →
      env.MPModelProtoValidationBeforeConversion params req1.model = true →
      env.ValidateParameters params = "" →
      env.MakeBoundsOfIntegerVariablesInteger params req1.model = (true, m1) →
      presolveStage env params resp (env.RemoveNearZeroTerms params m1) = .ok (m3, steps) →
      params.mip_automatically_scale_variables = true →
      env.DetectImpliedIntegers (env.RemoveNearZeroTerms params m3) = (vs, m5) →
      env.MakeBoundsOfIntegerVariablesInteger params m5 = (false, m6) →
      SatSolveProto env request =
        .ok (InfeasibleResponse "A detected integer variable has an empty domain")) := by
  constructor
  · intro env request req1 params resp m hp hx hv he hb
    simp only [SatSolveProto, hp, hx, hv, he, hb]
    simp
  · intro env request req1 params resp m1 m3 m5 m6 steps vs hp hx hv he hb1 hps hauto hd hb2
    simp only [SatSolveProto, hp, hx, hv, he, hb1, hps, scalingStage, hauto, hd, hb2]
    simp

/-- Claim C5, witness: both empty-domain sites at concrete environments. -/
theorem empty_domain_returns_infeasible_witness :
    SatSolveProto envW1 {} =
      .ok (InfeasibleResponse "An integer variable has an empty domain") ∧
    SatSolveProto envW2 reqW2 =
      .ok (InfeasibleResponse "A detected integer variable has an empty domain") :=
  ⟨empty_domain_returns_infeasible.1 envW1 {} {} {} {} {} rfl rfl rfl rfl rfl,
   empty_domain_returns_infeasible.2 envW2 reqW2 reqW2 {} {} reqW2.model reqW2.model
     {} {} [] [1] rfl rfl rfl rfl rfl rfl rfl rfl rfl⟩

/-- Claim C1, failing run: `reqC1` is a maximization request and the engine
reports two additional solutions with objective values `10` then `7`, yet the
returned additional solutions are sorted ascending, `[7, 10]`.  The sort
direction is decided by `request.model().maximize()` read after
`request.Clear()` (source lines 339 and 423), which is always `false`, so a
maximize request never gets the descending order the spec requires. -/
theorem additional_solutions_sorted_ascending_despite_maximize :
    reqC1.model.maximize = true ∧
    (SatSolveProto envC1 reqC1).map
      (fun r => r.additional_solutions.map MPSolution.objective_value) =
      .ok [7, 10] := by
  refine ⟨rfl, ?_⟩
  norm_num [SatSolveProto, configureParams, presolveStage, scalingStage,
    buildAdditionalSolutions, additionalSolutionObjective, postSolve,
    applyPostsolveSteps, sortSolutions, insertSorted, solutionLess,
    ToMPSolverResponseStatus, envC1, reqC1, trivialEnv, MPModelRequest.Clear,
    InfeasibleResponse, ModelInvalidResponse, Except.map]
